import Mathlib

/-!
Shallow embedding of the Sentinel test order-book generators
(`scripts/generate_small_test_orderbook.py` and
`scripts/generate_test_orderbook.py`).

Python floats are modelled as rationals (`ℚ`); `round(x, n)` is modelled as
rounding to `n` decimal places.  The global `random` module is modelled as an
explicit stream of rational draws threaded through every call, with
`random.gauss mu sigma`, `random.uniform a b` and `random.random()` consuming
one draw each.  Wall-clock inputs (`time.time()`, `datetime.now()`) are
explicit parameters.
-/

namespace Sentinel

/-- A random source: a stream of raw draws plus a position.  Each primitive
consumes exactly one draw, mirroring the sequential consumption of the global
`random` state in the scripts. -/
structure Rng where
  f : ℕ → ℚ
  pos : ℕ

/-- Take the next raw draw. -/
def Rng.next (r : Rng) : ℚ × Rng := (r.f r.pos, ⟨r.f, r.pos + 1⟩)

/-- `random.gauss(mu, sigma)`: an arbitrary gaussian outcome, modelled as
`mu + sigma * draw` with an unconstrained draw. -/
def gauss (mu sigma : ℚ) (r : Rng) : ℚ × Rng :=
  let n := r.next
  (mu + sigma * n.1, n.2)

/-- `random.uniform(a, b)`: modelled as `a + (b - a) * draw`. -/
def uniform (a b : ℚ) (r : Rng) : ℚ × Rng :=
  let n := r.next
  (a + (b - a) * n.1, n.2)

/-- `random.random()`: the raw draw. -/
def rand (r : Rng) : ℚ × Rng := r.next

/-- `round(x, 2)` — round to 2 decimal places. -/
def round2 (q : ℚ) : ℚ := (round (q * 100) : ℚ) / 100

/-- `round(x, 6)` — round to 6 decimal places. -/
def round6 (q : ℚ) : ℚ := (round (q * 1000000) : ℚ) / 1000000

/-- One order-book level: `{'price': ..., 'size': ...}`. -/
structure Level where
  price : ℚ
  size : ℚ
deriving DecidableEq, Repr

/-- One order-book snapshot as assembled by `generate_snapshot`. -/
structure Snapshot where
  timestamp : ℤ
  symbol : String
  bids : List Level
  asks : List Level
  mid_price : ℚ
  spread : ℚ
deriving DecidableEq, Repr

/-- The mutable state of `OrderBookGenerator`:
`base_price`, `base_spread`, `current_price`, `price_trend`. -/
structure Gen where
  base_price : ℚ
  base_spread : ℚ
  current_price : ℚ
  price_trend : ℚ
deriving DecidableEq, Repr

/-- `OrderBookGenerator.__init__(base_price=108000.0, base_spread=0.01)`. -/
def Gen.init (basePrice baseSpread : ℚ) : Gen :=
  { base_price := basePrice, base_spread := baseSpread,
    current_price := basePrice, price_trend := 0 }

/-- `OrderBookGenerator.generate_price_movement`: trend decays by 0.99 and
absorbs a gaussian shock, the return adds a second gaussian shock, the price
updates multiplicatively and is clamped to `[100000, 120000]` via
`max(100000, min(120000, price))`.  Returns the new price, the new generator
state, and the advanced random source. -/
def generate_price_movement (g : Gen) (r : Rng) : ℚ × Gen × Rng :=
  let volatility : ℚ := 1/10000
  let tc := gauss 0 (1/10000) r
  let trend1 := g.price_trend * (99/100) + tc.1
  let rc := gauss 0 volatility tc.2
  let price_change := trend1 + rc.1
  let p1 := g.current_price * (1 + price_change)
  let p2 := max 100000 (min 120000 p1)
  (p2, { g with current_price := p2, price_trend := trend1 }, rc.2)

/-- The body of the `for i in range(num_levels)` loop of
`generate_order_levels`, in generation order (before the final sort).
`i` is the current loop index, `n` the number of levels still to produce.
Per level: `level_offset = (base_spread * side_sign) * (1 + i * 0.1)`,
`price = round(mid + mid * level_offset, 2)`,
`volume = 10.0 * (1 / (1 + i * 0.2)) * uniform(0.5, 2.0)`, multiplied by
`uniform(5, 20)` when `random.random() < 0.05`, `size = round(volume, 6)`. -/
def rawLevels (baseSpread mid sign : ℚ) : ℕ → ℕ → Rng → List Level × Rng
  | 0, _, r => ([], r)
  | n + 1, i, r =>
    let level_offset := (baseSpread * sign) * (1 + (i : ℚ) * (1/10))
    let price := round2 (mid + mid * level_offset)
    let base_volume : ℚ := 10 * (1 / (1 + (i : ℚ) * (1/5)))
    let u := uniform (1/2) 2 r
    let volume := base_volume * u.1
    let p := rand u.2
    let vr : ℚ × Rng :=
      if p.1 < 1/20 then
        let m := uniform 5 20 p.2
        (volume * m.1, m.2)
      else (volume, p.2)
    let lvl : Level := { price := price, size := round6 vr.1 }
    let rest := rawLevels baseSpread mid sign n (i + 1) vr.2
    (lvl :: rest.1, rest.2)

/-- `OrderBookGenerator.generate_order_levels(mid_price, side, num_levels)`:
generate `num_levels` levels in index order, then sort bids descending by
price and asks ascending by price. -/
def generate_order_levels (g : Gen) (mid : ℚ) (side : String) (numLevels : ℕ)
    (r : Rng) : List Level × Rng :=
  let sign : ℚ := if side = "bid" then 1 else -1
  let raw := rawLevels g.base_spread mid sign numLevels 0 r
  let sorted :=
    if side = "bid" then raw.1.mergeSort (fun a b => decide (b.price ≤ a.price))
    else raw.1.mergeSort (fun a b => decide (a.price ≤ b.price))
  (sorted, raw.2)

/-- `spread = asks[0]['price'] - bids[0]['price'] if bids and asks else 0.0`. -/
def bestDiff : List Level → List Level → ℚ
  | b :: _, a :: _ => a.price - b.price
  | _, _ => 0

/-- `OrderBookGenerator.generate_snapshot(timestamp_ms)`, parameterized by the
per-side level count (20 in the small variant, 50 in the full one). -/
def generate_snapshot (numLevels : ℕ) (g : Gen) (ts : ℤ) (r : Rng) :
    Snapshot × Gen × Rng :=
  let pm := generate_price_movement g r
  let current_price := pm.1
  let g1 := pm.2.1
  let bl := generate_order_levels g1 current_price "bid" numLevels pm.2.2
  let al := generate_order_levels g1 current_price "ask" numLevels bl.2
  ({ timestamp := ts, symbol := "BTC-USD", bids := bl.1, asks := al.1,
     mid_price := current_price, spread := bestDiff bl.1 al.1 },
   g1, al.2)

/-- The snapshot loop of `generate_small_test_data` / `generate_test_data`:
produce `n` snapshots starting at loop index `i`, each stamped
`start_time + i * interval_ms`, threading generator state and randomness. -/
def genSnapshots (numLevels : ℕ) (startTime intervalMs : ℤ) :
    ℕ → ℕ → Gen → Rng → List Snapshot
  | 0, _, _, _ => []
  | n + 1, i, g, r =>
    let s := generate_snapshot numLevels g (startTime + (i : ℤ) * intervalMs) r
    s.1 :: genSnapshots numLevels startTime intervalMs n (i + 1) s.2.1 s.2.2

/-- `generate_small_test_data(duration_minutes, interval_ms)`:
`total_ms = duration_minutes * 60 * 1000`,
`num_snapshots = total_ms // interval_ms` (Python floor division), then the
loop `for i in range(num_snapshots)` with a fresh default generator.
`startTime` is the wall-clock `int(time.time() * 1000)`. -/
def generate_small_test_data (durationMinutes intervalMs startTime : ℤ)
    (r : Rng) : List Snapshot :=
  let total_ms := durationMinutes * 60 * 1000
  let num_snapshots := total_ms.fdiv intervalMs
  genSnapshots 20 startTime intervalMs num_snapshots.toNat 0
    (Gen.init 108000 (1/100)) r

/-- `generate_test_data(duration_hours, interval_ms)`: the 1-hour variant,
`total_ms = duration_hours * 60 * 60 * 1000` and 50 levels per side. -/
def generate_test_data (durationHours intervalMs startTime : ℤ)
    (r : Rng) : List Snapshot :=
  let total_ms := durationHours * 60 * 60 * 1000
  let num_snapshots := total_ms.fdiv intervalMs
  genSnapshots 50 startTime intervalMs num_snapshots.toNat 0
    (Gen.init 108000 (1/100)) r

/-- The `timeframe_coverage` dict of `save_small_test_data`. -/
def smallCoverage (n : ℕ) : List (String × ℕ) :=
  [("100ms", n), ("500ms", n / 5), ("1sec", n / 10),
   ("1min", n / 600), ("5min", n / 3000)]

/-- The `timeframe_coverage` dict of `save_test_data`. -/
def fullCoverage (n : ℕ) : List (String × ℕ) :=
  [("100ms", n), ("500ms", n / 5), ("1sec", n / 10),
   ("1min", n / 600), ("5min", n / 3000),
   ("15min", n / 9000), ("60min", n / 36000)]

/-- The metadata dict written by either serializer.  `durationValue` holds
`duration_minutes` (small variant) or `duration_hours` (full variant);
`generated_at` is `datetime.now().isoformat()`, an explicit clock input. -/
structure Metadata where
  generated_at : String
  durationValue : ℚ
  interval_ms : ℤ
  num_snapshots : ℕ
  timeframe_coverage : List (String × ℕ)
deriving DecidableEq, Repr

/-- The metadata built by `save_small_test_data`: note the hard-coded
`'interval_ms': 100` and `duration_minutes = len(snapshots) * 100 / (1000 * 60)`. -/
def save_small_metadata (generatedAt : String) (snapshots : List Snapshot) :
    Metadata :=
  { generated_at := generatedAt,
    durationValue := (snapshots.length : ℚ) * 100 / (1000 * 60),
    interval_ms := 100,
    num_snapshots := snapshots.length,
    timeframe_coverage := smallCoverage snapshots.length }

/-- The metadata built by `save_test_data`: `'interval_ms': 100` hard-coded and
`duration_hours = len(snapshots) * 100 / (1000 * 60 * 60)`. -/
def save_test_metadata (generatedAt : String) (snapshots : List Snapshot) :
    Metadata :=
  { generated_at := generatedAt,
    durationValue := (snapshots.length : ℚ) * 100 / (1000 * 60 * 60),
    interval_ms := 100,
    num_snapshots := snapshots.length,
    timeframe_coverage := fullCoverage snapshots.length }

/-- The persisted `output_data = {'metadata': ..., 'snapshots': ...}`. -/
structure OutputDoc where
  metadata : Metadata
  snapshots : List Snapshot
deriving DecidableEq, Repr

/-- One full run of the small script: generate then serialize.  `startTime` and
`generatedAt` are the two wall-clock readings. -/
def runSmall (durationMinutes intervalMs startTime : ℤ) (generatedAt : String)
    (r : Rng) : OutputDoc :=
  let snapshots := generate_small_test_data durationMinutes intervalMs startTime r
  { metadata := save_small_metadata generatedAt snapshots, snapshots := snapshots }

/-- One full run of the full (1-hour) script: generate then serialize. -/
def runFull (durationHours intervalMs startTime : ℤ) (generatedAt : String)
    (r : Rng) : OutputDoc :=
  let snapshots := generate_test_data durationHours intervalMs startTime r
  { metadata := save_test_metadata generatedAt snapshots, snapshots := snapshots }

/-- The price process iterated: the `current_price` after `n` successive
`generate_price_movement` ticks from state `g` with draw source `r`. -/
def priceAfter (g : Gen) (r : Rng) : ℕ → ℚ
  | 0 => g.current_price
  | n + 1 =>
    priceAfter (generate_price_movement g r).2.1 (generate_price_movement g r).2.2 n

/-- A concrete all-zero draw stream, for witnesses. -/
def rng0 : Rng := ⟨fun _ => 0, 0⟩

/-- A second draw stream, pointwise equal to `rng0` but not syntactically so. -/
def rngZ : Rng := ⟨fun k => 0 * (k : ℚ), 0⟩

/-- The default generator both scripts construct (`OrderBookGenerator()`). -/
def gen0 : Gen := Gen.init 108000 (1/100)

/-- A generator state sitting at the price ceiling with a strongly negative
trend, for the boundary scenario of the price-clamp claim. -/
def genCeil : Gen :=
  { base_price := 108000, base_spread := 1/100,
    current_price := 120000, price_trend := -1000000 }

/-! ### Helper lemmas -/

theorem round2_dist (q : ℚ) : |round2 q - q| ≤ 1/200 := by
  have h : |q * 100 - round (q * 100)| ≤ 1/2 := abs_sub_round (q * 100)
  have : round2 q - q = -((q * 100 - (round (q * 100) : ℚ)) / 100) := by
    unfold round2; ring
  rw [this, abs_neg, abs_div]
  rw [abs_of_pos (by norm_num : (0:ℚ) < 100)]
  linarith [h]

theorem pm_price_lower (g : Gen) (r : Rng) :
    100000 ≤ (generate_price_movement g r).1 := by
  unfold generate_price_movement
  exact le_max_left _ _

theorem pm_price_upper (g : Gen) (r : Rng) :
    (generate_price_movement g r).1 ≤ 120000 := by
  unfold generate_price_movement
  exact max_le (by norm_num) (min_le_left _ _)

theorem pm_state_price (g : Gen) (r : Rng) :
    (generate_price_movement g r).2.1.current_price =
      (generate_price_movement g r).1 := rfl

theorem length_rawLevels (b mid s : ℚ) :
    ∀ (n i : ℕ) (r : Rng), (rawLevels b mid s n i r).1.length = n := by
  intro n
  induction n with
  | zero => intro i r; rfl
  | succ m ih =>
    intro i r
    simp only [rawLevels, List.length_cons]
    rw [ih]

theorem rawLevels_getElem_price (b mid s : ℚ) :
    ∀ (n i0 : ℕ) (r : Rng) (j : ℕ) (l : Level),
      (rawLevels b mid s n i0 r).1[j]? = some l →
      l.price = round2 (mid + mid * ((b * s) * (1 + ((i0 + j : ℕ) : ℚ) * (1/10)))) := by
  intro n
  induction n with
  | zero =>
    intro i0 r j l h
    simp [rawLevels] at h
  | succ m ih =>
    intro i0 r j l h
    match j with
    | 0 =>
      simp only [rawLevels, List.getElem?_cons_zero, Option.some.injEq] at h
      rw [← h]
      simp
    | j' + 1 =>
      simp only [rawLevels, List.getElem?_cons_succ] at h
      rw [ih (i0 + 1) _ j' l h]
      congr 3
      push_cast
      ring

theorem rawLevels_mem_price (b mid s : ℚ) :
    ∀ (n i0 : ℕ) (r : Rng) (l : Level), l ∈ (rawLevels b mid s n i0 r).1 →
      ∃ j : ℕ, j < n ∧
        l.price = round2 (mid + mid * ((b * s) * (1 + ((i0 + j : ℕ) : ℚ) * (1/10)))) := by
  intro n
  induction n with
  | zero => intro i0 r l h; simp [rawLevels] at h
  | succ m ih =>
    intro i0 r l h
    simp only [rawLevels, List.mem_cons] at h
    rcases h with h | h
    · refine ⟨0, Nat.succ_pos m, ?_⟩
      rw [h]
      simp
    · rcases ih (i0 + 1) _ l h with ⟨j, hj, hp⟩
      refine ⟨j + 1, by omega, ?_⟩
      rw [hp]
      congr 3
      push_cast
      ring

theorem generate_order_levels_perm (g : Gen) (mid : ℚ) (side : String)
    (n : ℕ) (r : Rng) :
    (generate_order_levels g mid side n r).1.Perm
      (rawLevels g.base_spread mid (if side = "bid" then 1 else -1) n 0 r).1 := by
  unfold generate_order_levels
  by_cases h : side = "bid" <;> simp [h, List.mergeSort_perm]

theorem length_generate_order_levels (g : Gen) (mid : ℚ) (side : String)
    (n : ℕ) (r : Rng) :
    (generate_order_levels g mid side n r).1.length = n := by
  rw [(generate_order_levels_perm g mid side n r).length_eq, length_rawLevels]

theorem mem_generate_order_levels_price (g : Gen) (mid : ℚ) (side : String)
    (n : ℕ) (r : Rng) (l : Level)
    (h : l ∈ (generate_order_levels g mid side n r).1) :
    ∃ j : ℕ, j < n ∧ l.price =
      round2 (mid + mid * ((g.base_spread * (if side = "bid" then 1 else -1)) *
        (1 + (j : ℚ) * (1/10)))) := by
  have hm := (generate_order_levels_perm g mid side n r).mem_iff.mp h
  rcases rawLevels_mem_price _ mid _ n 0 r l hm with ⟨j, hj, hp⟩
  exact ⟨j, hj, by simpa using hp⟩

theorem generate_order_levels_bid_sorted (g : Gen) (mid : ℚ) (n : ℕ) (r : Rng) :
    (generate_order_levels g mid "bid" n r).1.Pairwise
      (fun a b => b.price ≤ a.price) := by
  unfold generate_order_levels
  simp only [if_pos rfl]
  have h := @List.sorted_mergeSort Level (fun a b => decide (b.price ≤ a.price))
    (fun a b c hab hbc => by
      simp only [decide_eq_true_eq] at *
      exact le_trans hbc hab)
    (fun a b => by
      simp only [Bool.or_eq_true, decide_eq_true_eq]
      exact le_total b.price a.price)
    (rawLevels g.base_spread mid 1 n 0 r).1
  exact h.imp (fun hab => by simpa using hab)

theorem generate_order_levels_ask_sorted (g : Gen) (mid : ℚ) (n : ℕ) (r : Rng) :
    (generate_order_levels g mid "ask" n r).1.Pairwise
      (fun a b => a.price ≤ b.price) := by
  unfold generate_order_levels
  simp only [if_neg (by decide : ¬ ("ask" = "bid"))]
  have h := @List.sorted_mergeSort Level (fun a b => decide (a.price ≤ b.price))
    (fun a b c hab hbc => by
      simp only [decide_eq_true_eq] at *
      exact le_trans hab hbc)
    (fun a b => by
      simp only [Bool.or_eq_true, decide_eq_true_eq]
      exact le_total a.price b.price)
    (rawLevels g.base_spread mid (-1) n 0 r).1
  exact h.imp (fun hab => by simpa using hab)

theorem snapshot_timestamp (nl : ℕ) (g : Gen) (ts : ℤ) (r : Rng) :
    (generate_snapshot nl g ts r).1.timestamp = ts := rfl

theorem snapshot_mid (nl : ℕ) (g : Gen) (ts : ℤ) (r : Rng) :
    (generate_snapshot nl g ts r).1.mid_price = (generate_price_movement g r).1 := rfl

theorem snapshot_bids (nl : ℕ) (g : Gen) (ts : ℤ) (r : Rng) :
    (generate_snapshot nl g ts r).1.bids =
      (generate_order_levels (generate_price_movement g r).2.1
        (generate_price_movement g r).1 "bid" nl (generate_price_movement g r).2.2).1 := rfl

theorem snapshot_asks (nl : ℕ) (g : Gen) (ts : ℤ) (r : Rng) :
    (generate_snapshot nl g ts r).1.asks =
      (generate_order_levels (generate_price_movement g r).2.1
        (generate_price_movement g r).1 "ask" nl
        (generate_order_levels (generate_price_movement g r).2.1
          (generate_price_movement g r).1 "bid" nl
          (generate_price_movement g r).2.2).2).1 := rfl

theorem snapshot_spread (nl : ℕ) (g : Gen) (ts : ℤ) (r : Rng) :
    (generate_snapshot nl g ts r).1.spread =
      bestDiff (generate_snapshot nl g ts r).1.bids
        (generate_snapshot nl g ts r).1.asks := rfl

theorem length_genSnapshots (nl : ℕ) (st im : ℤ) :
    ∀ (n i : ℕ) (g : Gen) (r : Rng),
      (genSnapshots nl st im n i g r).length = n := by
  intro n
  induction n with
  | zero => intro i g r; rfl
  | succ m ih =>
    intro i g r
    simp only [genSnapshots, List.length_cons]
    rw [ih]

theorem genSnapshots_getElem_timestamp (nl : ℕ) (st im : ℤ) :
    ∀ (n i0 : ℕ) (g : Gen) (r : Rng) (j : ℕ) (s : Snapshot),
      (genSnapshots nl st im n i0 g r)[j]? = some s →
      s.timestamp = st + ((i0 + j : ℕ) : ℤ) * im := by
  intro n
  induction n with
  | zero => intro i0 g r j s h; simp [genSnapshots] at h
  | succ m ih =>
    intro i0 g r j s h
    match j with
    | 0 =>
      simp only [genSnapshots, List.getElem?_cons_zero, Option.some.injEq] at h
      rw [← h, snapshot_timestamp]
      simp
    | j' + 1 =>
      simp only [genSnapshots, List.getElem?_cons_succ] at h
      rw [ih (i0 + 1) _ _ j' s h]
      push_cast
      ring

theorem length_generate_small (d m st : ℤ) (r : Rng) :
    (generate_small_test_data d m st r).length = ((d * 60 * 1000).fdiv m).toNat := by
  unfold generate_small_test_data
  rw [length_genSnapshots]

theorem length_generate_full (d m st : ℤ) (r : Rng) :
    (generate_test_data d m st r).length = ((d * 60 * 60 * 1000).fdiv m).toNat := by
  unfold generate_test_data
  rw [length_genSnapshots]

theorem fdiv_toNat_eq_floor {a m : ℤ} (ha : 0 ≤ a) (hm : 0 < m) :
    ((a.fdiv m).toNat : ℤ) = ⌊(a : ℚ) / (m : ℚ)⌋ := by
  rw [Int.toNat_of_nonneg (Int.fdiv_nonneg ha hm.le),
    Int.fdiv_eq_ediv _ hm.le]
  have h := Rat.floor_intCast_div_natCast a m.toNat
  have hcast : ((m.toNat : ℕ) : ℚ) = (m : ℚ) := by
    rw [← Int.cast_natCast, Int.toNat_of_nonneg hm.le]
  rw [hcast] at h
  rw [h, Int.toNat_of_nonneg hm.le]

theorem generate_small_getElem_timestamp (d m st : ℤ) (r : Rng) (i : ℕ)
    (s : Snapshot) (h : (generate_small_test_data d m st r)[i]? = some s) :
    s.timestamp = st + (i : ℤ) * m := by
  simp only [generate_small_test_data] at h
  have := genSnapshots_getElem_timestamp 20 st m _ 0 _ _ i s h
  simpa using this

theorem generate_full_getElem_timestamp (d m st : ℤ) (r : Rng) (i : ℕ)
    (s : Snapshot) (h : (generate_test_data d m st r)[i]? = some s) :
    s.timestamp = st + (i : ℤ) * m := by
  simp only [generate_test_data] at h
  have := genSnapshots_getElem_timestamp 50 st m _ 0 _ _ i s h
  simpa using this

/-- **C1** — For every run with positive duration and positive `interval_ms`,
the series builder (both the 5-minute/`generate_small_test_data` and the
1-hour/`generate_test_data` variant) produces exactly
`floor(total_duration_ms / interval_ms)` snapshots, the `i`-th snapshot's
timestamp is `start_time + i * interval_ms`, and consecutive timestamps
differ by exactly `interval_ms`. -/
theorem C1_series_builder_count_timestamps (d m st : ℤ) (r : Rng)
    (hd : 0 < d) (hm : 0 < m) :
    (((generate_small_test_data d m st r).length : ℤ) =
        ⌊((d * 60 * 1000 : ℤ) : ℚ) / (m : ℚ)⌋ ∧
      (∀ (i : ℕ) (s : Snapshot),
        (generate_small_test_data d m st r)[i]? = some s →
        s.timestamp = st + (i : ℤ) * m) ∧
      (∀ (i : ℕ) (s t : Snapshot),
        (generate_small_test_data d m st r)[i]? = some s →
        (generate_small_test_data d m st r)[i + 1]? = some t →
        t.timestamp - s.timestamp = m)) ∧
    (((generate_test_data d m st r).length : ℤ) =
        ⌊((d * 60 * 60 * 1000 : ℤ) : ℚ) / (m : ℚ)⌋ ∧
      (∀ (i : ℕ) (s : Snapshot),
        (generate_test_data d m st r)[i]? = some s →
        s.timestamp = st + (i : ℤ) * m) ∧
      (∀ (i : ℕ) (s t : Snapshot),
        (generate_test_data d m st r)[i]? = some s →
        (generate_test_data d m st r)[i + 1]? = some t →
        t.timestamp - s.timestamp = m)) := by
  refine ⟨⟨?_, ?_, ?_⟩, ⟨?_, ?_, ?_⟩⟩
  · rw [length_generate_small]
    exact fdiv_toNat_eq_floor (by omega) hm
  · exact fun i s h => generate_small_getElem_timestamp d m st r i s h
  · intro i s t hs ht
    rw [generate_small_getElem_timestamp d m st r i s hs,
      generate_small_getElem_timestamp d m st r (i + 1) t ht]
    push_cast
    ring
  · rw [length_generate_full]
    exact fdiv_toNat_eq_floor (by omega) hm
  · exact fun i s h => generate_full_getElem_timestamp d m st r i s h
  · intro i s t hs ht
    rw [generate_full_getElem_timestamp d m st r i s hs,
      generate_full_getElem_timestamp d m st r (i + 1) t ht]
    push_cast
    ring

/-- Witness for C1 at `duration_minutes = 1`, `interval_ms = 100`. -/
theorem C1_series_builder_count_timestamps_witness :
    ((Sentinel.generate_small_test_data 1 100 0 rng0).length : ℤ) =
      ⌊((1 * 60 * 1000 : ℤ) : ℚ) / ((100 : ℤ) : ℚ)⌋ :=
  (C1_series_builder_count_timestamps 1 100 0 rng0 (by decide) (by decide)).1.1

/-- **C2** — The level synthesizer returns exactly `count` levels; the level at
generation index `i` (before the final sort) has price
`round(mid + mid * base_spread * side_sign * (1 + i * 0.1), 2)` with
`side_sign = +1` for `"bid"` and `-1` otherwise; and the sorted output is a
permutation of the generated levels, so levels with equal rounded prices are
preserved, never merged. -/
theorem C2_level_synthesizer_prices (g : Gen) (mid : ℚ) (side : String)
    (n : ℕ) (r : Rng) :
    (generate_order_levels g mid side n r).1.length = n ∧
    (∀ (i : ℕ) (l : Level),
      (rawLevels g.base_spread mid (if side = "bid" then 1 else -1) n 0 r).1[i]? =
        some l →
      l.price = round2 (mid + mid * ((g.base_spread *
        (if side = "bid" then 1 else -1)) * (1 + (i : ℚ) * (1/10))))) ∧
    (generate_order_levels g mid side n r).1.Perm
      (rawLevels g.base_spread mid (if side = "bid" then 1 else -1) n 0 r).1 := by
  refine ⟨length_generate_order_levels g mid side n r, ?_,
    generate_order_levels_perm g mid side n r⟩
  intro i l h
  have := rawLevels_getElem_price g.base_spread mid
    (if side = "bid" then 1 else -1) n 0 r i l h
  simpa using this

/-- Witness for C2: generation index 0 of a 3-level bid book at mid 108000. -/
theorem C2_level_synthesizer_prices_witness :
    ∃ l : Level,
      (rawLevels gen0.base_spread 108000
          (if "bid" = "bid" then (1 : ℚ) else -1) 3 0 rng0).1[0]? = some l ∧
      l.price = round2 (108000 + 108000 * ((gen0.base_spread *
        (if "bid" = "bid" then 1 else -1)) * (1 + (0 : ℚ) * (1/10)))) := by
  have hlen : (rawLevels gen0.base_spread 108000
      (if "bid" = "bid" then (1 : ℚ) else -1) 3 0 rng0).1.length = 3 :=
    length_rawLevels _ _ _ 3 0 rng0
  have h0 : (rawLevels gen0.base_spread 108000
      (if "bid" = "bid" then (1 : ℚ) else -1) 3 0 rng0).1[0]? =
      some ((rawLevels gen0.base_spread 108000
        (if "bid" = "bid" then (1 : ℚ) else -1) 3 0 rng0).1[0]) :=
    List.getElem?_eq_getElem (by omega)
  exact ⟨_, h0,
    (C2_level_synthesizer_prices gen0 108000 "bid" 3 rng0).2.1 0 _ h0⟩

theorem priceAfter_range : ∀ (n : ℕ) (g : Gen) (r : Rng), 0 < n →
    100000 ≤ priceAfter g r n ∧ priceAfter g r n ≤ 120000 := by
  intro n
  induction n with
  | zero => intro g r h; simp at h
  | succ k ih =>
    intro g r _
    rcases Nat.eq_zero_or_pos k with hk | hk
    · subst hk
      simp only [priceAfter, pm_state_price]
      exact ⟨pm_price_lower g r, pm_price_upper g r⟩
    · have := ih (generate_price_movement g r).2.1
        (generate_price_movement g r).2.2 hk
      simpa [priceAfter] using this

/-- **C3** — After every price-process step the resulting price (and hence
every snapshot's `mid_price`) lies in `[100000, 120000]`, for any prior state
(any trend, any price, including the ceiling) and any gaussian draws; and the
price after any positive number of ticks stays in that range. -/
theorem C3_price_clamped (g : Gen) (r : Rng) :
    (100000 ≤ (generate_price_movement g r).1 ∧
      (generate_price_movement g r).1 ≤ 120000) ∧
    (∀ (nl : ℕ) (ts : ℤ),
      100000 ≤ (generate_snapshot nl g ts r).1.mid_price ∧
      (generate_snapshot nl g ts r).1.mid_price ≤ 120000) ∧
    (∀ n : ℕ, 0 < n →
      100000 ≤ priceAfter g r n ∧ priceAfter g r n ≤ 120000) := by
  refine ⟨⟨pm_price_lower g r, pm_price_upper g r⟩, ?_, ?_⟩
  · intro nl ts
    rw [snapshot_mid]
    exact ⟨pm_price_lower g r, pm_price_upper g r⟩
  · exact fun n hn => priceAfter_range n g r hn

/-- Witness for C3: 10000 ticks from the ceiling with a strongly negative
trend never break the floor. -/
theorem C3_price_clamped_witness :
    100000 ≤ priceAfter genCeil rng0 10000 ∧
      priceAfter genCeil rng0 10000 ≤ 120000 :=
  (C3_price_clamped genCeil rng0).2.2 10000 (by decide)

/-- **C4** — In every generated snapshot, `bids` is sorted non-increasing by
price and `asks` is sorted non-decreasing by price. -/
theorem C4_snapshot_sides_sorted (nl : ℕ) (g : Gen) (ts : ℤ) (r : Rng) :
    (generate_snapshot nl g ts r).1.bids.Pairwise
      (fun a b => b.price ≤ a.price) ∧
    (generate_snapshot nl g ts r).1.asks.Pairwise
      (fun a b => a.price ≤ b.price) := by
  rw [snapshot_bids, snapshot_asks]
  exact ⟨generate_order_levels_bid_sorted _ _ _ _,
    generate_order_levels_ask_sorted _ _ _ _⟩

/-- **C5** — For every generated snapshot with positive level count, both
sides are non-empty and `spread` equals `asks[0].price - bids[0].price`
exactly; the `0.0` fallback is unreachable. -/
theorem C5_spread_formula (nl : ℕ) (g : Gen) (ts : ℤ) (r : Rng) (h : 0 < nl) :
    ∃ (b a : Level) (bs as : List Level),
      (generate_snapshot nl g ts r).1.bids = b :: bs ∧
      (generate_snapshot nl g ts r).1.asks = a :: as ∧
      (generate_snapshot nl g ts r).1.spread = a.price - b.price := by
  have hb : (generate_snapshot nl g ts r).1.bids.length = nl := by
    rw [snapshot_bids, length_generate_order_levels]
  have ha : (generate_snapshot nl g ts r).1.asks.length = nl := by
    rw [snapshot_asks, length_generate_order_levels]
  have hbne : (generate_snapshot nl g ts r).1.bids ≠ [] := by
    intro hn; rw [hn] at hb; simp at hb; omega
  have hane : (generate_snapshot nl g ts r).1.asks ≠ [] := by
    intro hn; rw [hn] at ha; simp at ha; omega
  obtain ⟨b, bs, hbs⟩ := List.exists_cons_of_ne_nil hbne
  obtain ⟨a, as, has⟩ := List.exists_cons_of_ne_nil hane
  refine ⟨b, a, bs, as, hbs, has, ?_⟩
  rw [snapshot_spread, hbs, has]
  rfl

/-- Witness for C5 at level count 1. -/
theorem C5_spread_formula_witness :
    ∃ (b a : Level) (bs as : List Level),
      (generate_snapshot 1 gen0 0 rng0).1.bids = b :: bs ∧
      (generate_snapshot 1 gen0 0 rng0).1.asks = a :: as ∧
      (generate_snapshot 1 gen0 0 rng0).1.spread = a.price - b.price :=
  C5_spread_formula 1 gen0 0 rng0 (by decide)

/-- **C6** — Coverage counts are `floor(num_snapshots / ratio)` for the
configured ratios 5, 10, 600, 3000 (both variants) and 9000, 36000 (full
variant); the 5-minute scenario yields 3000 snapshots with `1min ↦ 5`,
`5min ↦ 1`, and the 1-hour scenario yields 36000 snapshots with `60min ↦ 1`,
`15min ↦ 4`. -/
theorem C6_timeframe_coverage (st : ℤ) (r : Rng) (ga : String) :
    (∀ snaps : List Snapshot,
      (save_small_metadata ga snaps).timeframe_coverage.lookup "500ms" =
          some (snaps.length / 5) ∧
      (save_small_metadata ga snaps).timeframe_coverage.lookup "1sec" =
          some (snaps.length / 10) ∧
      (save_small_metadata ga snaps).timeframe_coverage.lookup "1min" =
          some (snaps.length / 600) ∧
      (save_small_metadata ga snaps).timeframe_coverage.lookup "5min" =
          some (snaps.length / 3000) ∧
      (save_test_metadata ga snaps).timeframe_coverage.lookup "15min" =
          some (snaps.length / 9000) ∧
      (save_test_metadata ga snaps).timeframe_coverage.lookup "60min" =
          some (snaps.length / 36000)) ∧
    ((generate_small_test_data 5 100 st r).length = 3000 ∧
      (save_small_metadata ga
        (generate_small_test_data 5 100 st r)).timeframe_coverage.lookup "1min" =
          some 5 ∧
      (save_small_metadata ga
        (generate_small_test_data 5 100 st r)).timeframe_coverage.lookup "5min" =
          some 1) ∧
    ((generate_test_data 1 100 st r).length = 36000 ∧
      (save_test_metadata ga
        (generate_test_data 1 100 st r)).timeframe_coverage.lookup "60min" =
          some 1 ∧
      (save_test_metadata ga
        (generate_test_data 1 100 st r)).timeframe_coverage.lookup "15min" =
          some 4) := by
  have hsmall : (generate_small_test_data 5 100 st r).length = 3000 := by
    rw [length_generate_small]; decide
  have hfull : (generate_test_data 1 100 st r).length = 36000 := by
    rw [length_generate_full]; decide
  refine ⟨?_, ⟨hsmall, ?_, ?_⟩, ⟨hfull, ?_, ?_⟩⟩
  · intro snaps
    simp [save_small_metadata, save_test_metadata, smallCoverage, fullCoverage,
      List.lookup]
  · simp [save_small_metadata, smallCoverage, List.lookup, hsmall]
  · simp [save_small_metadata, smallCoverage, List.lookup, hsmall]
  · simp [save_test_metadata, fullCoverage, List.lookup, hfull]
  · simp [save_test_metadata, fullCoverage, List.lookup, hfull]

theorem pm_base_spread (g : Gen) (r : Rng) :
    (generate_price_movement g r).2.1.base_spread = g.base_spread := rfl

theorem round2_ge (q : ℚ) : q - 1/200 ≤ round2 q := by
  have h := abs_le.mp (round2_dist q)
  linarith [h.1]

theorem round2_le (q : ℚ) : round2 q ≤ q + 1/200 := by
  have h := abs_le.mp (round2_dist q)
  linarith [h.2]

theorem bid_price_above (mid c : ℚ) (hmid : 100000 ≤ mid) (hc : 1/100 ≤ c)
    (j : ℕ) : mid < round2 (mid + mid * (c * (1 + (j : ℚ) * (1/10)))) := by
  have hj : (0:ℚ) ≤ (j : ℚ) := Nat.cast_nonneg j
  have h1 : (1:ℚ) ≤ 1 + (j : ℚ) * (1/10) := by linarith
  have h2 : 1/100 ≤ c * (1 + (j : ℚ) * (1/10)) := by nlinarith
  have h3 : 1000 ≤ mid * (c * (1 + (j : ℚ) * (1/10))) := by nlinarith
  have h4 := round2_ge (mid + mid * (c * (1 + (j : ℚ) * (1/10))))
  linarith

theorem ask_price_below (mid c : ℚ) (hmid : 100000 ≤ mid) (hc : c ≤ -(1/100))
    (j : ℕ) : round2 (mid + mid * (c * (1 + (j : ℚ) * (1/10)))) < mid := by
  have hj : (0:ℚ) ≤ (j : ℚ) := Nat.cast_nonneg j
  have h1 : (1:ℚ) ≤ 1 + (j : ℚ) * (1/10) := by linarith
  have h2 : c * (1 + (j : ℚ) * (1/10)) ≤ -(1/100) := by nlinarith
  have h3 : mid * (c * (1 + (j : ℚ) * (1/10))) ≤ -1000 := by nlinarith
  have h4 := round2_le (mid + mid * (c * (1 + (j : ℚ) * (1/10))))
  linarith

theorem mem_bid_levels_price (g : Gen) (mid : ℚ) (n : ℕ) (r : Rng) (l : Level)
    (h : l ∈ (generate_order_levels g mid "bid" n r).1) :
    ∃ j : ℕ, j < n ∧
      l.price = round2 (mid + mid * (g.base_spread * (1 + (j : ℚ) * (1/10)))) := by
  obtain ⟨j, hj, hp⟩ := mem_generate_order_levels_price g mid "bid" n r l h
  refine ⟨j, hj, ?_⟩
  rw [hp]
  congr 1
  rw [if_pos (show "bid" = "bid" from rfl)]
  ring

theorem mem_ask_levels_price (g : Gen) (mid : ℚ) (n : ℕ) (r : Rng) (l : Level)
    (h : l ∈ (generate_order_levels g mid "ask" n r).1) :
    ∃ j : ℕ, j < n ∧
      l.price = round2 (mid + mid * ((-g.base_spread) * (1 + (j : ℚ) * (1/10)))) := by
  obtain ⟨j, hj, hp⟩ := mem_generate_order_levels_price g mid "ask" n r l h
  refine ⟨j, hj, ?_⟩
  rw [hp]
  congr 1
  rw [if_neg (by decide : ¬ ("ask" = "bid"))]
  ring

theorem snapshot_heads (nl : ℕ) (g : Gen) (ts : ℤ) (r : Rng) (h : 0 < nl) :
    ∃ (b a : Level) (bs as : List Level),
      (generate_snapshot nl g ts r).1.bids = b :: bs ∧
      (generate_snapshot nl g ts r).1.asks = a :: as ∧
      (generate_snapshot nl g ts r).1.spread = a.price - b.price := by
  have hb : (generate_snapshot nl g ts r).1.bids.length = nl := by
    rw [snapshot_bids, length_generate_order_levels]
  have ha : (generate_snapshot nl g ts r).1.asks.length = nl := by
    rw [snapshot_asks, length_generate_order_levels]
  have hbne : (generate_snapshot nl g ts r).1.bids ≠ [] := by
    intro hn; rw [hn] at hb; simp at hb; omega
  have hane : (generate_snapshot nl g ts r).1.asks ≠ [] := by
    intro hn; rw [hn] at ha; simp at ha; omega
  obtain ⟨b, bs, hbs⟩ := List.exists_cons_of_ne_nil hbne
  obtain ⟨a, as, has⟩ := List.exists_cons_of_ne_nil hane
  refine ⟨b, a, bs, as, hbs, has, ?_⟩
  rw [snapshot_spread, hbs, has]
  rfl

/-- **C9** — With the generator's base spread 0.01 and a positive level count,
every bid price in a generated snapshot is strictly above the mid-price and
every ask price strictly below it, so the best bid exceeds the best ask and
the spread is strictly negative. -/
theorem C9_inverted_book_negative_spread (nl : ℕ) (g : Gen) (ts : ℤ)
    (r : Rng) (hbs : 1/100 ≤ g.base_spread) (hnl : 0 < nl) :
    (∀ l ∈ (generate_snapshot nl g ts r).1.bids,
      (generate_snapshot nl g ts r).1.mid_price < l.price) ∧
    (∀ l ∈ (generate_snapshot nl g ts r).1.asks,
      l.price < (generate_snapshot nl g ts r).1.mid_price) ∧
    (generate_snapshot nl g ts r).1.spread < 0 := by
  have hmid : 100000 ≤ (generate_snapshot nl g ts r).1.mid_price := by
    rw [snapshot_mid]; exact pm_price_lower g r
  have hbid : ∀ l ∈ (generate_snapshot nl g ts r).1.bids,
      (generate_snapshot nl g ts r).1.mid_price < l.price := by
    intro l hl
    rw [snapshot_bids] at hl
    obtain ⟨j, _, hp⟩ := mem_bid_levels_price _ _ _ _ l hl
    rw [pm_base_spread] at hp
    rw [hp, ← snapshot_mid nl g ts r]
    exact bid_price_above _ _ hmid hbs j
  have hask : ∀ l ∈ (generate_snapshot nl g ts r).1.asks,
      l.price < (generate_snapshot nl g ts r).1.mid_price := by
    intro l hl
    rw [snapshot_asks] at hl
    obtain ⟨j, _, hp⟩ := mem_ask_levels_price _ _ _ _ l hl
    rw [pm_base_spread] at hp
    rw [hp, ← snapshot_mid nl g ts r]
    exact ask_price_below _ _ hmid (by linarith) j
  refine ⟨hbid, hask, ?_⟩
  obtain ⟨b, a, bs, as, hbsl, hasl, hsp⟩ := snapshot_heads nl g ts r hnl
  have hb : b ∈ (generate_snapshot nl g ts r).1.bids := by
    rw [hbsl]; exact List.mem_cons_self b bs
  have ha : a ∈ (generate_snapshot nl g ts r).1.asks := by
    rw [hasl]; exact List.mem_cons_self a as
  have := hbid b hb
  have := hask a ha
  rw [hsp]
  linarith

/-- Witness for C9 at level count 1 with the default generator. -/
theorem C9_inverted_book_negative_spread_witness :
    (∀ l ∈ (generate_snapshot 1 gen0 0 rng0).1.bids,
      (generate_snapshot 1 gen0 0 rng0).1.mid_price < l.price) ∧
    (∀ l ∈ (generate_snapshot 1 gen0 0 rng0).1.asks,
      l.price < (generate_snapshot 1 gen0 0 rng0).1.mid_price) ∧
    (generate_snapshot 1 gen0 0 rng0).1.spread < 0 :=
  C9_inverted_book_negative_spread 1 gen0 0 rng0 (le_of_eq rfl) (by decide)

theorem generate_small_eq_nil (d m st : ℤ) (r : Rng)
    (h : ((d * 60 * 1000).fdiv m).toNat = 0) :
    generate_small_test_data d m st r = [] := by
  have hl := length_generate_small d m st r
  rw [h] at hl
  exact List.length_eq_zero.mp hl

theorem generate_full_eq_nil (d m st : ℤ) (r : Rng)
    (h : ((d * 60 * 60 * 1000).fdiv m).toNat = 0) :
    generate_test_data d m st r = [] := by
  have hl := length_generate_full d m st r
  rw [h] at hl
  exact List.length_eq_zero.mp hl

theorem fdiv_toNat_zero_of_nonpos_pos {a m : ℤ} (ha : a ≤ 0) (hm : 0 < m) :
    (a.fdiv m).toNat = 0 := by
  rcases lt_or_eq_of_le ha with h | h
  · exact Int.toNat_of_nonpos (le_of_lt (Int.fdiv_neg' h hm))
  · rw [h, Int.zero_fdiv]
    rfl

theorem fdiv_toNat_zero_of_nonneg_neg {a m : ℤ} (ha : 0 ≤ a) (hm : m < 0) :
    (a.fdiv m).toNat = 0 :=
  Int.toNat_of_nonpos (Int.fdiv_nonpos ha hm.le)

/-- **C7 counterexample** — Invoked with the non-positive duration 0, both
generators return a normal (empty) snapshot series rather than failing with
an error: the `range(num_snapshots)` loop is silently empty. -/
theorem C7_counterexample_no_failure :
    generate_small_test_data 0 100 0 rng0 = [] ∧
    generate_test_data 0 100 0 rng0 = [] := by
  constructor <;> rfl

/-- **C7 (amended)** — The generators perform no configuration validation:
with a non-positive duration and positive interval, or a non-negative
duration and negative interval, they silently return an empty snapshot
series (`floor(total_ms / interval_ms) ≤ 0` snapshots), with no error. -/
theorem C7_amended_silent_degenerate (d m st : ℤ) (r : Rng) :
    (d ≤ 0 → 0 < m →
      generate_small_test_data d m st r = [] ∧
      generate_test_data d m st r = []) ∧
    (0 ≤ d → m < 0 →
      generate_small_test_data d m st r = [] ∧
      generate_test_data d m st r = []) := by
  constructor
  · intro hd hm
    exact ⟨generate_small_eq_nil d m st r
        (fdiv_toNat_zero_of_nonpos_pos (by omega) hm),
      generate_full_eq_nil d m st r
        (fdiv_toNat_zero_of_nonpos_pos (by omega) hm)⟩
  · intro hd hm
    exact ⟨generate_small_eq_nil d m st r
        (fdiv_toNat_zero_of_nonneg_neg (by omega) hm),
      generate_full_eq_nil d m st r
        (fdiv_toNat_zero_of_nonneg_neg (by omega) hm)⟩

/-- Witness for the amended C7 at duration `-3`, interval `7`. -/
theorem C7_amended_silent_degenerate_witness :
    generate_small_test_data (-3) 7 0 rng0 = [] ∧
    generate_test_data (-3) 7 0 rng0 = [] :=
  (C7_amended_silent_degenerate (-3) 7 0 rng0).1 (by decide) (by decide)

theorem runSmall_snapshots (d m st : ℤ) (ga : String) (r : Rng) :
    (runSmall d m st ga r).snapshots = generate_small_test_data d m st r := rfl

theorem runFull_snapshots (d m st : ℤ) (ga : String) (r : Rng) :
    (runFull d m st ga r).snapshots = generate_test_data d m st r := rfl

/-- **C8 counterexample** — Two runs with identical configuration
(duration 1 min, interval 60000 ms) and the identical random draw stream,
started at different wall-clock times (0 vs 1), produce different output
documents: the snapshot timestamps embed the start time.  A fixed random
seed alone therefore cannot make runs byte-identical. -/
theorem C8_counterexample_wall_clock :
    runSmall 1 60000 0 "t" rng0 ≠ runSmall 1 60000 1 "t" rng0 := by
  intro h
  have hlen : (generate_small_test_data 1 60000 0 rng0).length = 1 := by
    rw [length_generate_small]; decide
  have hsome : (generate_small_test_data 1 60000 0 rng0)[0]? =
      some ((generate_small_test_data 1 60000 0 rng0)[0]) :=
    List.getElem?_eq_getElem (by omega)
  have t1 := generate_small_getElem_timestamp 1 60000 0 rng0 0 _ hsome
  have h2 : (generate_small_test_data 1 60000 1 rng0)[0]? =
      some ((generate_small_test_data 1 60000 0 rng0)[0]) := by
    have hs := congrArg OutputDoc.snapshots h
    rw [runSmall_snapshots, runSmall_snapshots] at hs
    rw [← hs]
    exact hsome
  have t2 := generate_small_getElem_timestamp 1 60000 1 rng0 0 _ h2
  simp at t1 t2
  omega

/-- **C8 (amended)** — The output document is a function of the configuration,
the wall-clock readings (`start_time`, `generated_at`) and the random draw
stream alone: two runs agreeing on all of these (stream compared pointwise)
produce identical output documents.  The scripts never seed the global random
source, and the document embeds both clock readings, so determinism requires
fixing the draws *and* the clock, not just a seed. -/
theorem C8_amended_determinism (d m st : ℤ) (ga : String) (r r2 : Rng)
    (hf : ∀ k, r.f k = r2.f k) (hp : r.pos = r2.pos) :
    runSmall d m st ga r = runSmall d m st ga r2 ∧
    runFull d m st ga r = runFull d m st ga r2 := by
  have hr : r = r2 := by
    cases r
    cases r2
    simp only at hf hp
    simp [funext hf, hp]
  rw [hr]
  exact ⟨rfl, rfl⟩

/-- Witness for the amended C8: two pointwise-equal but syntactically
different draw streams give identical documents. -/
theorem C8_amended_determinism_witness :
    runSmall 1 100 0 "x" rng0 = runSmall 1 100 0 "x" rngZ ∧
    runFull 1 100 0 "x" rng0 = runFull 1 100 0 "x" rngZ :=
  C8_amended_determinism 1 100 0 "x" rng0 rngZ
    (fun k => by simp [rng0, rngZ]) rfl

/-- **C10** — Both serializers hard-code `interval_ms = 100` in the metadata
and derive the duration field as `len(snapshots) * 100` over the milliseconds
per unit, whatever interval actually built the series; for any run with
`interval_ms ≠ 100` and at least two snapshots, the metadata interval
disagrees with the actual consecutive-timestamp difference and the duration
field disagrees with the actual elapsed time. -/
theorem C10_serializer_metadata_hardcoded :
    (∀ (ga : String) (snaps : List Snapshot),
      (save_small_metadata ga snaps).interval_ms = 100 ∧
      (save_small_metadata ga snaps).durationValue =
        (snaps.length : ℚ) * 100 / (1000 * 60) ∧
      (save_test_metadata ga snaps).interval_ms = 100 ∧
      (save_test_metadata ga snaps).durationValue =
        (snaps.length : ℚ) * 100 / (1000 * 60 * 60)) ∧
    (∀ (d m st : ℤ) (ga : String) (r : Rng),
      m ≠ 100 → 2 ≤ (runSmall d m st ga r).snapshots.length →
      (runSmall d m st ga r).metadata.interval_ms = 100 ∧
      (∃ s t : Snapshot,
        (runSmall d m st ga r).snapshots[0]? = some s ∧
        (runSmall d m st ga r).snapshots[1]? = some t ∧
        t.timestamp - s.timestamp = m ∧ t.timestamp - s.timestamp ≠ 100) ∧
      (runSmall d m st ga r).metadata.durationValue ≠
        ((runSmall d m st ga r).snapshots.length : ℚ) * (m : ℚ) / (1000 * 60)) := by
  constructor
  · intro ga snaps
    exact ⟨rfl, rfl, rfl, rfl⟩
  · intro d m st ga r hm h2
    rw [runSmall_snapshots] at h2
    have h0 : (generate_small_test_data d m st r)[0]? =
        some ((generate_small_test_data d m st r)[0]) :=
      List.getElem?_eq_getElem (by omega)
    have h1 : (generate_small_test_data d m st r)[1]? =
        some ((generate_small_test_data d m st r)[1]) :=
      List.getElem?_eq_getElem (by omega)
    have t0 := generate_small_getElem_timestamp d m st r 0 _ h0
    have t1 := generate_small_getElem_timestamp d m st r 1 _ h1
    refine ⟨rfl, ⟨_, _, h0, h1, ?_, ?_⟩, ?_⟩
    · rw [t0, t1]; push_cast; ring
    · rw [t0, t1]; push_cast; intro hc; apply hm; omega
    · intro heq
      have hd : ((generate_small_test_data d m st r).length : ℚ) * 100 /
          (1000 * 60) =
          ((generate_small_test_data d m st r).length : ℚ) * (m : ℚ) /
          (1000 * 60) := heq
      field_simp at hd
      rcases hd with h | h
      · exact hm (by exact_mod_cast h.symm)
      · rw [h] at h2
        simp at h2

/-- Witness for C10 at duration 1 min, interval 200 ms. -/
theorem C10_serializer_metadata_hardcoded_witness :
    (runSmall 1 200 0 "x" rng0).metadata.interval_ms = 100 ∧
    (∃ s t : Snapshot,
      (runSmall 1 200 0 "x" rng0).snapshots[0]? = some s ∧
      (runSmall 1 200 0 "x" rng0).snapshots[1]? = some t ∧
      t.timestamp - s.timestamp = 200 ∧ t.timestamp - s.timestamp ≠ 100) ∧
    (runSmall 1 200 0 "x" rng0).metadata.durationValue ≠
      ((runSmall 1 200 0 "x" rng0).snapshots.length : ℚ) * ((200 : ℤ) : ℚ) /
        (1000 * 60) :=
  C10_serializer_metadata_hardcoded.2 1 200 0 "x" rng0 (by decide)
    (by rw [runSmall_snapshots, length_generate_small]; decide)

end Sentinel
